import Mathlib

/-!
Verification development for the MemGM repository.

The development shallowly embeds the two source files:

* `mini_memgpt.py` — the `MessagesFormatter` class: construction, the
  in-place mutation performed by `format_messages`, and the
  `save`/`as_dict`/`load_from_file` round trip.
* `memgpt_agent.py` — the `MemGptAgent` heartbeat controller:
  constructor settings validation, `get_response` (the `while True`
  tool-dispatch loop), the `activate_message_mode` tool, and
  `send_message_to_user`.

The completion provider (`llama_cpp_agent.get_chat_response`) is external
to the repository and is modelled as an oracle: a function from the index
of the generation call to the provider's output.  The memory backends
(the `memory` package: event memory queue/session, core memory, the
archival chroma collection) are part of the repository but are not among
the given source files; following the specification they are modelled as
an append-only event list, a constant core-memory snapshot and an
archival counter (spec sections 4.1–4.3: every append is immediately
visible, `count()` equals the number of appends).
-/

/-! ## Python string primitives used by the sources -/

/-- Whitespace recognised by Python's `str.strip()` (ASCII subset). -/
def pyIsSpace (c : Char) : Bool :=
  c = ' ' || c = '\t' || c = '\n' || c = '\r' || c.val = 11 || c.val = 12

/-- Model of Python `str.strip()`: drop leading and trailing whitespace. -/
def pyStrip (s : String) : String :=
  String.mk (((s.data.dropWhile pyIsSpace).reverse.dropWhile pyIsSpace).reverse)

/-- Hexadecimal digit, lowercase, as produced by Python's json escapes. -/
def hexDigit (n : Nat) : Char :=
  if n < 10 then Char.ofNat (48 + n) else Char.ofNat (87 + n)

/-- Four-digit lowercase hexadecimal rendering of `n % 65536`. -/
def hex4 (n : Nat) : String :=
  String.mk [hexDigit (n / 4096 % 16), hexDigit (n / 256 % 16),
             hexDigit (n / 16 % 16), hexDigit (n % 16)]

/-- Unicode escape for a character, with surrogate pairs above the BMP,
as produced by `json.dumps` with `ensure_ascii=True`. -/
def jsonUnicodeEscape (c : Char) : String :=
  let n := c.val.toNat
  if n < 65536 then "\\u" ++ hex4 n
  else
    let m := n - 65536
    "\\u" ++ hex4 (55296 + m / 1024) ++ "\\u" ++ hex4 (56320 + m % 1024)

/-- Escape of one character inside a JSON string literal (`json.dumps`). -/
def jsonEscapeChar (c : Char) : String :=
  if c = '"' then "\\\""
  else if c = '\\' then "\\\\"
  else if c = '\n' then "\\n"
  else if c = '\t' then "\\t"
  else if c = '\r' then "\\r"
  else if c.val = 8 then "\\b"
  else if c.val = 12 then "\\f"
  else if c.val < 32 || c.val > 126 then jsonUnicodeEscape c
  else String.singleton c

/-- JSON string literal for `s`, as produced by `json.dumps`. -/
def jsonQuote (s : String) : String :=
  "\"" ++ String.join (s.data.map jsonEscapeChar) ++ "\""

/-- A run of `n` spaces, for `json.dumps(..., indent=2)` indentation. -/
def spacesRun (n : Nat) : String :=
  String.mk (List.replicate n ' ')

/-- Universe of Python values that can appear in the JSON-serialised data
of the sources (formatter configuration dictionaries and the elements of
function-message content lists). -/
inductive PyVal where
  | pynull : PyVal
  | pybool (b : Bool) : PyVal
  | pyint (n : Int) : PyVal
  | pystr (s : String) : PyVal
  | pylist (xs : List PyVal) : PyVal
  | pydict (kvs : List (String × PyVal)) : PyVal

mutual

/-- Model of `json.dumps(v, indent=2)` at nesting level `lvl`. -/
def pyJsonDumpsVal (lvl : Nat) : PyVal → String
  | .pynull => "null"
  | .pybool b => if b then "true" else "false"
  | .pyint n => toString n
  | .pystr s => jsonQuote s
  | .pylist [] => "[]"
  | .pylist (x :: xs) =>
      "[\n" ++ String.intercalate ",\n" (pyJsonDumpsItems (lvl + 1) (x :: xs)) ++
        "\n" ++ spacesRun (2 * lvl) ++ "]"
  | .pydict [] => "\x7b\x7d"
  | .pydict (kv :: kvs) =>
      "\x7b\n" ++ String.intercalate ",\n" (pyJsonDumpsPairs (lvl + 1) (kv :: kvs)) ++
        "\n" ++ spacesRun (2 * lvl) ++ "\x7d"

/-- Items of a JSON array at nesting level `lvl`, each on its own line. -/
def pyJsonDumpsItems (lvl : Nat) : List PyVal → List String
  | [] => []
  | x :: xs => (spacesRun (2 * lvl) ++ pyJsonDumpsVal lvl x) :: pyJsonDumpsItems lvl xs

/-- Entries of a JSON object at nesting level `lvl`, each on its own line. -/
def pyJsonDumpsPairs (lvl : Nat) : List (String × PyVal) → List String
  | [] => []
  | (k, v) :: kvs =>
      (spacesRun (2 * lvl) ++ jsonQuote k ++ ": " ++ pyJsonDumpsVal lvl v) ::
        pyJsonDumpsPairs lvl kvs

end

/-- Top-level `json.dumps(v, indent=2)`. -/
def pyJsonDumps (v : PyVal) : String := pyJsonDumpsVal 0 v

/-! ## `mini_memgpt.py`: the `MessagesFormatter` class -/

/-- Attribute record of a `MessagesFormatter` object (`mini_memgpt.py`
lines 16–63).  The sixteen fields are exactly the instance attributes
assigned in `__init__`; `USE_FUNCTION_CALL_END` is set to `False` there
and is not a constructor parameter. -/
structure MessagesFormatter where
  PRE_PROMPT : String
  SYS_PROMPT_START : String
  SYS_PROMPT_END : String
  USER_PROMPT_START : String
  USER_PROMPT_END : String
  ASSISTANT_PROMPT_START : String
  ASSISTANT_PROMPT_END : String
  INCLUDE_SYS_PROMPT_IN_FIRST_USER_MESSAGE : Bool
  DEFAULT_STOP_SEQUENCES : List String
  FUNCTION_CALL_PROMPT_START : String
  FUNCTION_CALL_PROMPT_END : String
  FUNCTION_PROMPT_START : String
  FUNCTION_PROMPT_END : String
  USE_USER_ROLE_FUNCTION_CALL_RESULT : Bool
  STRIP_PROMPT : Bool
  USE_FUNCTION_CALL_END : Bool
deriving DecidableEq

/-- `MessagesFormatter.__init__`: all parameters explicit, in the
signature's order; `USE_FUNCTION_CALL_END` starts out `False`. -/
def mkMessagesFormatter (PRE_PROMPT SYS_PROMPT_START SYS_PROMPT_END USER_PROMPT_START
    USER_PROMPT_END ASSISTANT_PROMPT_START ASSISTANT_PROMPT_END
    FUNCTION_CALL_PROMPT_START FUNCTION_CALL_PROMPT_END : String)
    (INCLUDE_SYS_PROMPT_IN_FIRST_USER_MESSAGE : Bool)
    (DEFAULT_STOP_SEQUENCES : List String)
    (USE_USER_ROLE_FUNCTION_CALL_RESULT : Bool)
    (FUNCTION_PROMPT_START FUNCTION_PROMPT_END : String)
    (STRIP_PROMPT : Bool) : MessagesFormatter :=
  { PRE_PROMPT := PRE_PROMPT
    SYS_PROMPT_START := SYS_PROMPT_START
    SYS_PROMPT_END := SYS_PROMPT_END
    USER_PROMPT_START := USER_PROMPT_START
    USER_PROMPT_END := USER_PROMPT_END
    ASSISTANT_PROMPT_START := ASSISTANT_PROMPT_START
    ASSISTANT_PROMPT_END := ASSISTANT_PROMPT_END
    INCLUDE_SYS_PROMPT_IN_FIRST_USER_MESSAGE := INCLUDE_SYS_PROMPT_IN_FIRST_USER_MESSAGE
    DEFAULT_STOP_SEQUENCES := DEFAULT_STOP_SEQUENCES
    FUNCTION_CALL_PROMPT_START := FUNCTION_CALL_PROMPT_START
    FUNCTION_CALL_PROMPT_END := FUNCTION_CALL_PROMPT_END
    FUNCTION_PROMPT_START := FUNCTION_PROMPT_START
    FUNCTION_PROMPT_END := FUNCTION_PROMPT_END
    USE_USER_ROLE_FUNCTION_CALL_RESULT := USE_USER_ROLE_FUNCTION_CALL_RESULT
    STRIP_PROMPT := STRIP_PROMPT
    USE_FUNCTION_CALL_END := false }

/-- Content of a chat message dictionary: a string, or (for function
results) a list of Python values. -/
inductive MsgContent where
  | ofStr (s : String) : MsgContent
  | ofList (xs : List PyVal) : MsgContent

/-- Whether a message content is a plain string. -/
def MsgContent.isStr : MsgContent → Bool
  | .ofStr _ => true
  | .ofList _ => false

/-- One entry of the `messages` list passed to `format_messages`. -/
structure ChatMessage where
  role : String
  content : MsgContent

/-- One iteration of the `for message in messages` loop of
`format_messages` (`mini_memgpt.py` lines 78–108).  Arguments: the
accumulated `formatted_messages`, `last_role`, `no_user_prompt_start`,
and the current message.  Returns the updated accumulator together with
the (possibly mutated in place) message, or `none` where Python would
raise a `TypeError` (string concatenation with a list). -/
def formatStep (f : MessagesFormatter) (fm lr : String) (noUps : Bool) (m : ChatMessage) :
    Option (String × String × Bool × ChatMessage) :=
  if m.role = "system" then
    match m.content with
    | .ofStr c =>
        let fm1 := fm ++ f.SYS_PROMPT_START ++ c ++ f.SYS_PROMPT_END
        if f.INCLUDE_SYS_PROMPT_IN_FIRST_USER_MESSAGE then
          some (f.USER_PROMPT_START ++ fm1, "system", true, m)
        else
          some (fm1, "system", noUps, m)
    | .ofList _ => none
  else if m.role = "user" then
    match m.content with
    | .ofStr c =>
        if noUps then
          some (fm ++ c ++ f.USER_PROMPT_END, "user", false, m)
        else
          some (fm ++ f.USER_PROMPT_START ++ c ++ f.USER_PROMPT_END, "user", noUps, m)
    | .ofList _ => none
  else if m.role = "assistant" then
    match m.content with
    | .ofStr c0 =>
        let c := if f.STRIP_PROMPT then pyStrip c0 else c0
        let m1 : ChatMessage := { role := m.role, content := .ofStr c }
        if (pyStrip c).startsWith "\x7b" then
          some (fm ++ f.FUNCTION_CALL_PROMPT_START ++ c ++ f.FUNCTION_CALL_PROMPT_END,
                "assistant", noUps, m1)
        else
          some (fm ++ f.ASSISTANT_PROMPT_START ++ c ++ f.ASSISTANT_PROMPT_END,
                "assistant", noUps, m1)
    | .ofList _ => none
  else if m.role = "function" then
    let p : String × ChatMessage :=
      match m.content with
      | .ofList xs =>
          (String.intercalate "\n" (xs.map pyJsonDumps),
           { role := m.role, content := .ofStr (String.intercalate "\n" (xs.map pyJsonDumps)) })
      | .ofStr c => (c, m)
    if f.USE_USER_ROLE_FUNCTION_CALL_RESULT then
      some (fm ++ f.USER_PROMPT_START ++ p.1 ++ f.USER_PROMPT_END, "user", noUps, p.2)
    else
      some (fm ++ f.FUNCTION_PROMPT_START ++ p.1 ++ f.FUNCTION_PROMPT_END, "function", noUps, p.2)
  else
    some (fm, lr, noUps, m)

/-- The whole `for` loop of `format_messages`: threads the accumulator
through `formatStep` and collects the mutated messages list. -/
def formatWalk (f : MessagesFormatter) :
    List ChatMessage → String → String → Bool → Option (String × String × List ChatMessage)
  | [], fm, lr, _ => some (fm, lr, [])
  | m :: rest, fm, lr, noUps =>
    match formatStep f fm lr noUps m with
    | none => none
    | some (fm1, lr1, noUps1, m1) =>
      match formatWalk f rest fm1 lr1 noUps1 with
      | none => none
      | some (fmF, lrF, ms) => some (fmF, lrF, m1 :: ms)

/-- The trailing-prompt selection of `format_messages`
(`mini_memgpt.py` lines 109–122). -/
def formatFinish (f : MessagesFormatter) (fm lr : String) : String × String :=
  if f.USE_FUNCTION_CALL_END then
    (fm ++ (if f.STRIP_PROMPT then pyStrip f.FUNCTION_CALL_PROMPT_START
            else f.FUNCTION_CALL_PROMPT_START), "assistant")
  else if lr = "system" ∨ lr = "user" ∨ lr = "function" then
    (fm ++ (if f.STRIP_PROMPT then pyStrip f.ASSISTANT_PROMPT_START
            else f.ASSISTANT_PROMPT_START), "assistant")
  else
    (fm ++ (if f.STRIP_PROMPT then pyStrip f.USER_PROMPT_START
            else f.USER_PROMPT_START), "user")

/-- `MessagesFormatter.format_messages`: returns the formatted
conversation string, the role of the trailing prompt, and the input list
after its in-place mutations. -/
def formatMessages (f : MessagesFormatter) (msgs : List ChatMessage) :
    Option (String × String × List ChatMessage) :=
  match formatWalk f msgs f.PRE_PROMPT "assistant" false with
  | none => none
  | some (fm, lr, ms) =>
    let fin := formatFinish f fm lr
    some (fin.1, fin.2, ms)

/-- The keyword parameters accepted by `MessagesFormatter.__init__`. -/
def initParamNames : List String :=
  ["PRE_PROMPT", "SYS_PROMPT_START", "SYS_PROMPT_END", "USER_PROMPT_START",
   "USER_PROMPT_END", "ASSISTANT_PROMPT_START", "ASSISTANT_PROMPT_END",
   "FUNCTION_CALL_PROMPT_START", "FUNCTION_CALL_PROMPT_END",
   "INCLUDE_SYS_PROMPT_IN_FIRST_USER_MESSAGE", "DEFAULT_STOP_SEQUENCES",
   "USE_USER_ROLE_FUNCTION_CALL_RESULT", "FUNCTION_PROMPT_START",
   "FUNCTION_PROMPT_END", "STRIP_PROMPT"]

/-- `MessagesFormatter.as_dict`, i.e. `self.__dict__`: the sixteen
instance attributes, in the order they are first assigned in
`__init__` (`mini_memgpt.py` lines 46–63 and 162–169). -/
def MessagesFormatter.asDict (f : MessagesFormatter) : List (String × PyVal) :=
  [("PRE_PROMPT", .pystr f.PRE_PROMPT),
   ("SYS_PROMPT_START", .pystr f.SYS_PROMPT_START),
   ("SYS_PROMPT_END", .pystr f.SYS_PROMPT_END),
   ("USER_PROMPT_START", .pystr f.USER_PROMPT_START),
   ("USER_PROMPT_END", .pystr f.USER_PROMPT_END),
   ("ASSISTANT_PROMPT_START", .pystr f.ASSISTANT_PROMPT_START),
   ("ASSISTANT_PROMPT_END", .pystr f.ASSISTANT_PROMPT_END),
   ("INCLUDE_SYS_PROMPT_IN_FIRST_USER_MESSAGE",
      .pybool f.INCLUDE_SYS_PROMPT_IN_FIRST_USER_MESSAGE),
   ("DEFAULT_STOP_SEQUENCES", .pylist (f.DEFAULT_STOP_SEQUENCES.map PyVal.pystr)),
   ("FUNCTION_CALL_PROMPT_START", .pystr f.FUNCTION_CALL_PROMPT_START),
   ("FUNCTION_CALL_PROMPT_END", .pystr f.FUNCTION_CALL_PROMPT_END),
   ("FUNCTION_PROMPT_START", .pystr f.FUNCTION_PROMPT_START),
   ("FUNCTION_PROMPT_END", .pystr f.FUNCTION_PROMPT_END),
   ("USE_USER_ROLE_FUNCTION_CALL_RESULT", .pybool f.USE_USER_ROLE_FUNCTION_CALL_RESULT),
   ("STRIP_PROMPT", .pybool f.STRIP_PROMPT),
   ("USE_FUNCTION_CALL_END", .pybool f.USE_FUNCTION_CALL_END)]

/-- String-valued lookup inside a loaded configuration dictionary. -/
def lookupStr (d : List (String × PyVal)) (k : String) : Option String :=
  match d.lookup k with
  | some (.pystr s) => some s
  | _ => none

/-- Bool-valued lookup inside a loaded configuration dictionary. -/
def lookupBool (d : List (String × PyVal)) (k : String) : Option Bool :=
  match d.lookup k with
  | some (.pybool b) => some b
  | _ => none

/-- String-list-valued lookup inside a loaded configuration dictionary. -/
def lookupStrList (d : List (String × PyVal)) (k : String) : Option (List String) :=
  match d.lookup k with
  | some (.pylist xs) =>
      xs.foldr (fun x acc =>
        match x, acc with
        | .pystr s, some l => some (s :: l)
        | _, _ => none) (some [])
  | _ => none

/-- `MessagesFormatter.load_from_dict` / the body of `load_from_file`:
`MessagesFormatter(**d)`.  Python raises `TypeError` (modelled as
`none`) when `d` contains a key that is not an `__init__` parameter;
otherwise the constructor runs with the given values, parameters with
defaults falling back to the defaults of the signature. -/
def MessagesFormatter.loadFromDict (d : List (String × PyVal)) : Option MessagesFormatter :=
  if d.all fun kv => initParamNames.contains kv.1 then
    match lookupStr d "PRE_PROMPT", lookupStr d "SYS_PROMPT_START",
        lookupStr d "SYS_PROMPT_END", lookupStr d "USER_PROMPT_START",
        lookupStr d "USER_PROMPT_END", lookupStr d "ASSISTANT_PROMPT_START",
        lookupStr d "ASSISTANT_PROMPT_END", lookupStr d "FUNCTION_CALL_PROMPT_START",
        lookupStr d "FUNCTION_CALL_PROMPT_END",
        lookupBool d "INCLUDE_SYS_PROMPT_IN_FIRST_USER_MESSAGE",
        lookupStrList d "DEFAULT_STOP_SEQUENCES" with
    | some a1, some a2, some a3, some a4, some a5, some a6, some a7, some a8, some a9,
        some b1, some l1 =>
        some (mkMessagesFormatter a1 a2 a3 a4 a5 a6 a7 a8 a9 b1 l1
          ((lookupBool d "USE_USER_ROLE_FUNCTION_CALL_RESULT").getD true)
          ((lookupStr d "FUNCTION_PROMPT_START").getD "")
          ((lookupStr d "FUNCTION_PROMPT_END").getD "")
          ((lookupBool d "STRIP_PROMPT").getD true))
    | _, _, _, _, _, _, _, _, _, _, _ => none
  else none

/-- Per-entry mutation stated by claim C10 (stated from the claim's
words, to be compared with the mutation the source performs): assistant
entries get whitespace-stripped content, function entries with
list-valued content get the newline-joined JSON dump, everything else —
including every role field — is unchanged. -/
def claimedMutation (m : ChatMessage) : ChatMessage :=
  if m.role = "assistant" then
    match m.content with
    | .ofStr c => { role := m.role, content := .ofStr (pyStrip c) }
    | .ofList _ => m
  else if m.role = "function" then
    match m.content with
    | .ofList xs => { role := m.role, content := .ofStr (String.intercalate "\n" (xs.map pyJsonDumps)) }
    | .ofStr _ => m
  else m

/-! ## `memgpt_agent.py`: constructor settings validation -/

/-- The possible runtime types of the `llama_llm` constructor argument
of `MemGptAgent` (`memgpt_agent.py` line 117). -/
inductive LlamaProviderKind where
  | llamaModel : LlamaProviderKind
  | llamaLLMSettings : LlamaProviderKind
  | llamaCppEndpointSettings : LlamaProviderKind
  | openAIEndpointSettings : LlamaProviderKind
deriving DecidableEq

/-- The possible runtime types of the `llama_generation_settings`
constructor argument (`memgpt_agent.py` lines 118–119). -/
inductive GenerationSettingsKind where
  | llamaLLM : GenerationSettingsKind
  | llamaCpp : GenerationSettingsKind
  | openAI : GenerationSettingsKind
deriving DecidableEq

/-- Default generation settings chosen when the argument is `None`
(`memgpt_agent.py` lines 127–133). -/
def defaultGenerationSettings : LlamaProviderKind → GenerationSettingsKind
  | .llamaModel => .llamaLLM
  | .llamaLLMSettings => .llamaLLM
  | .openAIEndpointSettings => .openAI
  | .llamaCppEndpointSettings => .llamaCpp

/-- Exception message raised at `memgpt_agent.py` lines 137–138. -/
def wrongLlamaCppServerMsg : String :=
  "Wrong generation settings for llama.cpp server endpoint, use LlamaCppServerGenerationSettings under llama_cpp_agent.providers.llama_cpp_server_provider!"

/-- Exception message raised at `memgpt_agent.py` lines 141–142. -/
def wrongLlamaCppPythonMsg : String :=
  "Wrong generation settings for llama-cpp-python, use LlamaLLMGenerationSettings under llama_cpp_agent.llm_settings!"

/-- Exception message raised at `memgpt_agent.py` lines 146–147. -/
def wrongOpenAIMsg : String :=
  "Wrong generation settings for OpenAI endpoint, use CompletionRequestSettings under llama_cpp_agent.providers.openai_endpoint_provider!"

/-- The settings validation performed by `MemGptAgent.__init__`
(`memgpt_agent.py` lines 127–147), including Python's operator
precedence in the second check: the condition at line 139 parses as
`isinstance(llama_llm, Llama) or (isinstance(llama_llm, LlamaLLMSettings)
and isinstance(llama_generation_settings, LlamaCppGenerationSettings))`. -/
def validateSettings (p : LlamaProviderKind) (g : Option GenerationSettingsKind) :
    Except String GenerationSettingsKind :=
  let gs := g.getD (defaultGenerationSettings p)
  if gs = .llamaLLM ∧ p = .llamaCppEndpointSettings then
    .error wrongLlamaCppServerMsg
  else if p = .llamaModel ∨ (p = .llamaLLMSettings ∧ gs = .llamaCpp) then
    .error wrongLlamaCppPythonMsg
  else if p = .openAIEndpointSettings ∧ ¬ gs = .openAI then
    .error wrongOpenAIMsg
  else
    .ok gs

/-! ## `memgpt_agent.py`: the heartbeat controller

The completion provider is an oracle `Nat → GenOutput` mapping the index
of the `get_chat_response` call (0-based, counted across the whole turn,
nested calls included) to the provider's output.  A structured tool call
is dispatched inside `get_chat_response` by the external function-tool
registry, so its side effects happen before the call returns; the
dispatched tool's observable effects are part of `GenOutput`.

Modelled from the spec (the `memory` package of the repository is not
among the given source files): the event store is a single append-only
list whose `count()` equals the number of appends and whose appends are
immediately visible (spec section 4.1); the archival store exposes a
count incremented by each insert (spec section 4.3); core memory is a
content string plus a `last_modified` stamp (spec section 4.2).  Also
modelled from the spec and from `add_outer_request_heartbeat_field=False`
at `memgpt_agent.py` line 164: a dispatched `activate_message_mode`
result carries no `request_heartbeat` value (`none`), matching the
`is not None` guard at line 226. -/

/-- `EventType` from `memory.event_memory`. -/
inductive EventType where
  | UserMessage : EventType
  | AgentMessage : EventType
  | FunctionMessage : EventType
  | SystemMessage : EventType
deriving DecidableEq

/-- Content payload of an event as appended by `get_response`: either a
plain string, or the whole provider result value (the `result` list that
line 225 and line 251 append verbatim when `result[0]` is a string). -/
inductive EventContent where
  | ofText (s : String) : EventContent
  | ofResult (s : String) : EventContent
deriving DecidableEq

/-- The dictionary `result[0]` returned for a dispatched structured tool
call: tool name, the handler's return value, the outer
`request_heartbeat` field (absent = `none`), and — modelled from the
spec — the number of archival-store inserts the handler performed. -/
structure ToolCallResult where
  function : String
  returnValue : String
  requestHeartbeat : Option Bool
  archivalInserts : Nat
deriving DecidableEq

/-- One provider output: plain generated text, or a structured tool call
(with the raw model output `raw` that `last_response` is set to). -/
inductive GenOutput where
  | ofText (s : String) : GenOutput
  | ofCall (raw : String) (tc : ToolCallResult) : GenOutput
deriving DecidableEq

/-- The raw text of a provider output (`llama_cpp_agent.last_response`). -/
def GenOutput.rawText : GenOutput → String
  | .ofText s => s
  | .ofCall raw _ => raw

/-- The value of `result` as seen by the `while True` loop of
`get_response` after the library call returns. -/
inductive LoopResult where
  | ofText (s : String) : LoopResult
  | ofCall (fn rv : String) (hb : Option Bool) : LoopResult
deriving DecidableEq

/-- The data substituted into the system prompt template at a render
(`memgpt_agent.py` lines 92–98, 198–204, 230–236), plus two trace
fields recording the tier state at the moment of the render:
`eventsAtRender` is what a fresh `session.query(Event).all()` length
would be, `archivalAtRender` is the archival collection count.  The
rendered `imb_count` is the `imbCount` field; `ckv_count` is
`ckvCount`. -/
structure SystemPromptData where
  imbCount : Nat
  ckvCount : Nat
  lastModified : String
  iamContent : String
  eventsAtRender : Nat
  archivalAtRender : Nat
deriving DecidableEq

/-- Observable state of a `MemGptAgent` during a turn. -/
structure AgentState where
  events : List (EventType × EventContent)
  sent : List String
  genCalls : Nat
  prompts : List SystemPromptData
  lastResponse : String
  useFunctionCallEnd : Bool
  archivalCount : Nat
  coreLastModified : String
  coreContent : String
deriving DecidableEq

/-- `add_event_to_queue`: append one event (immediately visible). -/
def addEvent (st : AgentState) (ty : EventType) (c : EventContent) : AgentState :=
  { st with events := st.events ++ [(ty, c)] }

/-- One render of the system prompt template with `imb_count := imb` and
the other substitutions read from the current tier state. -/
def renderSystemPrompt (st : AgentState) (imb : Nat) : AgentState :=
  { st with prompts := st.prompts ++
      [{ imbCount := imb, ckvCount := st.archivalCount,
         lastModified := st.coreLastModified, iamContent := st.coreContent,
         eventsAtRender := st.events.length, archivalAtRender := st.archivalCount }] }

/-- One `get_chat_response` call made with the function-tool registry,
including the dispatch of the returned structured call.  A dispatched
`activate_message_mode` runs `activate_message_mode.run`
(`memgpt_agent.py` lines 82–112): it clears `USE_FUNCTION_CALL_END`,
appends the current `last_response` as an AgentMessage event, appends a
"Message mode activated." FunctionMessage event, re-renders the system
prompt with a fresh event count (line 91 re-queries the store), makes
one nested `get_chat_response` call without the registry, forwards that
call's text to `send_message_to_user`, and returns
"Message mode activated.".  Any other tool applies its (spec-modelled)
store effects. -/
def generate (oracle : Nat → GenOutput) (st : AgentState) : AgentState × LoopResult :=
  match oracle st.genCalls with
  | .ofText s =>
      ({ st with genCalls := st.genCalls + 1, lastResponse := s }, .ofText s)
  | .ofCall raw tc =>
      let st1 := { st with genCalls := st.genCalls + 1, lastResponse := raw }
      if tc.function = "activate_message_mode" then
        let st2 := { st1 with useFunctionCallEnd := false }
        let st3 := addEvent st2 .AgentMessage (.ofText st2.lastResponse)
        let st4 := addEvent st3 .FunctionMessage (.ofText "Message mode activated.")
        let st5 := renderSystemPrompt st4 st4.events.length
        let nested := (oracle st5.genCalls).rawText
        let st6 := { st5 with genCalls := st5.genCalls + 1, lastResponse := nested }
        let st7 := { st6 with sent := st6.sent ++ [nested] }
        (st7, .ofCall tc.function "Message mode activated." tc.requestHeartbeat)
      else
        let st2 := { st1 with archivalCount := st1.archivalCount + tc.archivalInserts }
        (st2, .ofCall tc.function tc.returnValue tc.requestHeartbeat)

/-- The `while True` loop of `get_response` (`memgpt_agent.py` lines
217–251), fuel-indexed: returns the reached state and `true` when the
loop exited by `break`, or the state so far and `false` when the given
number of iterations did not reach a `break`.  Each fuel unit is one
iteration of the Python loop.  `query` is the event count captured at
line 196, before the loop, and reused at line 236 for every in-loop
render. -/
def runLoop (oracle : Nat → GenOutput) (query : Nat) :
    Nat → AgentState → LoopResult → AgentState × Bool
  | 0, st, _ => (st, false)
  | fuel + 1, st, res =>
    match res with
    | .ofText s =>
        let st1 := addEvent st .FunctionMessage (.ofResult s)
        let st2 := addEvent st1 .FunctionMessage (.ofResult s)
        runLoop oracle query fuel st2 res
    | .ofCall fn rv hb =>
        let st1 := if fn = "activate_message_mode" then st
                   else addEvent st .FunctionMessage (.ofText rv)
        match hb with
        | some true =>
            let st2 := renderSystemPrompt st1 query
            let g := generate oracle st2
            let st3 := addEvent g.1 .AgentMessage (.ofText g.1.lastResponse)
            runLoop oracle query fuel st3 g.2
        | _ => (st1, true)

/-- Start of `get_response` (`memgpt_agent.py` lines 192–196): set
`USE_FUNCTION_CALL_END`, append the inbound message as a UserMessage
event, and capture `query` (the full event count). -/
def startTurn (st0 : AgentState) (message : String) : AgentState × Nat :=
  let st1 := { st0 with useFunctionCallEnd := true }
  let st2 := addEvent st1 .UserMessage (.ofText message)
  (st2, st2.events.length)

/-- `startTurn` followed by the initial system-prompt render
(`memgpt_agent.py` lines 198–204). -/
def promptedTurn (st0 : AgentState) (message : String) : AgentState × Nat :=
  let p := startTurn st0 message
  (renderSystemPrompt p.1 p.2, p.2)

/-- `MemGptAgent.get_response`, fuel-indexed: initial append + render +
generation (lines 192–215), then the `while True` loop.  The `Bool`
is `true` when the loop exited by `break` within `fuel` iterations. -/
def getResponseEx (oracle : Nat → GenOutput) (st0 : AgentState) (message : String)
    (fuel : Nat) : AgentState × Bool :=
  let p := promptedTurn st0 message
  let g := generate oracle p.1
  let st := addEvent g.1 .AgentMessage (.ofText g.1.lastResponse)
  runLoop oracle p.2 fuel st g.2

/-- `get_response` as seen by the caller: `some` final state when the
turn ends within `fuel` loop iterations, `none` otherwise. -/
def getResponse (oracle : Nat → GenOutput) (st0 : AgentState) (message : String)
    (fuel : Nat) : Option AgentState :=
  let r := getResponseEx oracle st0 message fuel
  if r.2 then some r.1 else none

/-- Freshly constructed agent state: empty event store, empty archival
collection, no calls yet (`MemGptAgent.__init__` with no files). -/
def initialAgentState : AgentState :=
  { events := [], sent := [], genCalls := 0, prompts := [], lastResponse := "",
    useFunctionCallEnd := false, archivalCount := 0, coreLastModified := "",
    coreContent := "" }

/-- A provider output is a heartbeat-requesting structured call. -/
def isHeartbeatCall (g : GenOutput) : Prop :=
  ∃ raw tc, g = .ofCall raw tc ∧ tc.requestHeartbeat = some true

/-- A provider output is a structured call with `request_heartbeat`
false. -/
def isFinalCall (g : GenOutput) : Prop :=
  ∃ raw tc, g = .ofCall raw tc ∧ tc.requestHeartbeat = some false

/-- Well-formedness of a provider trace, from
`add_outer_request_heartbeat_field=False` at `memgpt_agent.py` line 164:
a dispatched `activate_message_mode` result never carries a
`request_heartbeat` value. -/
def wellFormedOracle (oracle : Nat → GenOutput) : Prop :=
  ∀ i raw tc, oracle i = .ofCall raw tc →
    tc.function = "activate_message_mode" → tc.requestHeartbeat = none

/-- A provider trace that never calls `activate_message_mode`. -/
def nonActivateOracle (oracle : Nat → GenOutput) : Prop :=
  ∀ i raw tc, oracle i = .ofCall raw tc → ¬ tc.function = "activate_message_mode"

/-! ## Concrete provider traces and sample data used by the witnesses -/

/-- A provider that answers every generation with plain text. -/
def plainTextOracle : Nat → GenOutput := fun _ => .ofText "Hello there."

/-- A provider whose every structured call requests another heartbeat. -/
def alwaysHeartbeatOracle : Nat → GenOutput :=
  fun _ => .ofCall "hb-json" ⟨"core_memory_append", "ok", some true, 0⟩

/-- A two-round trace: first call requests a heartbeat, second does not. -/
def c1Oracle : Nat → GenOutput := fun i =>
  if i = 0 then .ofCall "c0-json" ⟨"core_memory_append", "ok", some true, 0⟩
  else .ofCall "c1-json" ⟨"archival_memory_insert", "ok", some false, 1⟩

/-- A trace whose first call is `activate_message_mode` and whose second
generation (the nested one) is free-form prose. -/
def c3Oracle : Nat → GenOutput := fun i =>
  if i = 0 then .ofCall "act-json" ⟨"activate_message_mode", "", none, 0⟩
  else .ofText "Hello player."

/-- A single-round trace: one structured call without heartbeat. -/
def c4Oracle : Nat → GenOutput :=
  fun _ => .ofCall "c0-json" ⟨"core_memory_append", "ok", some false, 0⟩

/-- A two-round trace used to observe the second (heartbeat) render. -/
def c5Oracle : Nat → GenOutput := fun i =>
  if i = 0 then .ofCall "c0-json" ⟨"core_memory_append", "ok", some true, 0⟩
  else .ofCall "c1-json" ⟨"archival_memory_insert", "ok", some false, 1⟩

/-- A trace whose first call is `activate_message_mode` and whose nested
generation is the prose forwarded to the player. -/
def c7Oracle : Nat → GenOutput := fun i =>
  if i = 0 then .ofCall "call-json" ⟨"activate_message_mode", "", none, 0⟩
  else .ofText "Welcome, adventurer!"

/-- The `custom_chat_ml_formatter` built at `mini_memgpt.py` lines
186–190. -/
def customChatMLFormatter : MessagesFormatter :=
  mkMessagesFormatter "" "### Instructions:\n" "\n" "### Elysia Thunderscribe:\n" "\n"
    "### Game Master:\n" "\n" "### Function Call:\n" "\n" false
    ["### Player", "### Function Call:", "<Player Response>", "<Waiting for Player Input>",
     "### Way of Thought", "### Game Master:", "(Activate_message_mode off)",
     "### Function Call Result:", "Function Call:", "<|im_end|>", "### Elysia Thunderscribe:"]
    false "### Function Call Result:\n" "\n" true

/-- A message list exercising every branch of `format_messages`:
system, user, assistant (with surrounding whitespace and a brace),
function with list content, and an unknown role. -/
def sampleMessages : List ChatMessage :=
  [⟨"system", .ofStr "You are the GM."⟩,
   ⟨"user", .ofStr "Hello"⟩,
   ⟨"assistant", .ofStr "  \x7b\"function\": \"activate_message_mode\"\x7d \n"⟩,
   ⟨"function", .ofList [.pydict [("function", .pystr "activate_message_mode"),
                                  ("return_value", .pynull)]]⟩,
   ⟨"tool", .ofStr "ignored"⟩]

/-! ## Basic state lemmas -/

@[simp] theorem addEvent_genCalls (st : AgentState) (ty : EventType) (c : EventContent) :
    (addEvent st ty c).genCalls = st.genCalls := rfl

@[simp] theorem addEvent_sent (st : AgentState) (ty : EventType) (c : EventContent) :
    (addEvent st ty c).sent = st.sent := rfl

@[simp] theorem addEvent_prompts (st : AgentState) (ty : EventType) (c : EventContent) :
    (addEvent st ty c).prompts = st.prompts := rfl

@[simp] theorem addEvent_archivalCount (st : AgentState) (ty : EventType) (c : EventContent) :
    (addEvent st ty c).archivalCount = st.archivalCount := rfl

@[simp] theorem addEvent_events (st : AgentState) (ty : EventType) (c : EventContent) :
    (addEvent st ty c).events = st.events ++ [(ty, c)] := rfl

@[simp] theorem addEvent_lastResponse (st : AgentState) (ty : EventType) (c : EventContent) :
    (addEvent st ty c).lastResponse = st.lastResponse := rfl

@[simp] theorem renderSystemPrompt_genCalls (st : AgentState) (imb : Nat) :
    (renderSystemPrompt st imb).genCalls = st.genCalls := rfl

@[simp] theorem renderSystemPrompt_events (st : AgentState) (imb : Nat) :
    (renderSystemPrompt st imb).events = st.events := rfl

@[simp] theorem renderSystemPrompt_sent (st : AgentState) (imb : Nat) :
    (renderSystemPrompt st imb).sent = st.sent := rfl

@[simp] theorem renderSystemPrompt_archivalCount (st : AgentState) (imb : Nat) :
    (renderSystemPrompt st imb).archivalCount = st.archivalCount := rfl

@[simp] theorem renderSystemPrompt_lastResponse (st : AgentState) (imb : Nat) :
    (renderSystemPrompt st imb).lastResponse = st.lastResponse := rfl

@[simp] theorem renderSystemPrompt_prompts (st : AgentState) (imb : Nat) :
    (renderSystemPrompt st imb).prompts = st.prompts ++
      [{ imbCount := imb, ckvCount := st.archivalCount,
         lastModified := st.coreLastModified, iamContent := st.coreContent,
         eventsAtRender := st.events.length, archivalAtRender := st.archivalCount }] := rfl

/-! ## Unfolding lemmas for the controller -/

theorem generate_text (oracle : Nat → GenOutput) (st : AgentState) (s : String)
    (h : oracle st.genCalls = .ofText s) :
    generate oracle st = ({ st with genCalls := st.genCalls + 1, lastResponse := s }, .ofText s) := by
  unfold generate
  rw [h]

theorem generate_call (oracle : Nat → GenOutput) (st : AgentState) (raw : String)
    (tc : ToolCallResult) (h : oracle st.genCalls = .ofCall raw tc)
    (hfn : ¬ tc.function = "activate_message_mode") :
    generate oracle st =
      ({ st with
          genCalls := st.genCalls + 1
          lastResponse := raw
          archivalCount := st.archivalCount + tc.archivalInserts },
       .ofCall tc.function tc.returnValue tc.requestHeartbeat) := by
  unfold generate
  rw [h]
  simp [hfn]

theorem runLoop_text_step (oracle : Nat → GenOutput) (query fuel : Nat) (st : AgentState)
    (s : String) :
    runLoop oracle query (fuel + 1) st (.ofText s) =
      runLoop oracle query fuel
        (addEvent (addEvent st .FunctionMessage (.ofResult s)) .FunctionMessage (.ofResult s))
        (.ofText s) := rfl

theorem runLoop_call_break (oracle : Nat → GenOutput) (query fuel : Nat) (st : AgentState)
    (fn rv : String) (hb : Option Bool)
    (hfn : ¬ fn = "activate_message_mode") (hhb : ¬ hb = some true) :
    runLoop oracle query (fuel + 1) st (.ofCall fn rv hb) =
      (addEvent st .FunctionMessage (.ofText rv), true) := by
  cases hb with
  | none => simp [runLoop, hfn]
  | some b =>
    cases b with
    | false => simp [runLoop, hfn]
    | true => exact absurd rfl hhb

theorem runLoop_call_break_act (oracle : Nat → GenOutput) (query fuel : Nat) (st : AgentState)
    (rv : String) (hb : Option Bool) (hhb : ¬ hb = some true) :
    runLoop oracle query (fuel + 1) st (.ofCall "activate_message_mode" rv hb) = (st, true) := by
  cases hb with
  | none => simp [runLoop]
  | some b =>
    cases b with
    | false => simp [runLoop]
    | true => exact absurd rfl hhb

theorem runLoop_call_hb (oracle : Nat → GenOutput) (query fuel : Nat) (st : AgentState)
    (fn rv : String) (hfn : ¬ fn = "activate_message_mode") :
    runLoop oracle query (fuel + 1) st (.ofCall fn rv (some true)) =
      runLoop oracle query fuel
        (addEvent
          (generate oracle (renderSystemPrompt (addEvent st .FunctionMessage (.ofText rv)) query)).1
          .AgentMessage
          (.ofText (generate oracle
            (renderSystemPrompt (addEvent st .FunctionMessage (.ofText rv)) query)).1.lastResponse))
        (generate oracle (renderSystemPrompt (addEvent st .FunctionMessage (.ofText rv)) query)).2 := by
  simp [runLoop, hfn]

/-! ## Claim C6: constructor settings validation -/

/-- C6: the claim states that `MemGptAgent` construction raises exactly
for incompatible provider/generation-settings pairings, and in
particular accepts a `Llama` provider paired with
`LlamaLLMGenerationSettings`.  In the code the check at line 139 parses
as `isinstance(llama_llm, Llama) or (isinstance(llama_llm,
LlamaLLMSettings) and isinstance(..., LlamaCppGenerationSettings))`, so
a `Llama` instance always raises — even paired with the very settings
class the raised message tells the user to use, and even when the
settings were left unset and defaulted to that class.  The analogous
`LlamaLLMSettings` pairing and the OpenAI and llama.cpp-server pairings
behave as the claim says. -/
theorem spec_C6_llama_pairing_rejected :
    validateSettings .llamaModel (some .llamaLLM) = .error wrongLlamaCppPythonMsg ∧
    validateSettings .llamaModel none = .error wrongLlamaCppPythonMsg ∧
    validateSettings .llamaLLMSettings (some .llamaLLM) = .ok .llamaLLM ∧
    validateSettings .llamaLLMSettings none = .ok .llamaLLM ∧
    validateSettings .openAIEndpointSettings (some .openAI) = .ok .openAI ∧
    validateSettings .openAIEndpointSettings none = .ok .openAI ∧
    validateSettings .llamaCppEndpointSettings none = .ok .llamaCpp ∧
    validateSettings .llamaCppEndpointSettings (some .llamaLLM) = .error wrongLlamaCppServerMsg ∧
    validateSettings .openAIEndpointSettings (some .llamaCpp) = .error wrongOpenAIMsg :=
  ⟨rfl, rfl, rfl, rfl, rfl, rfl, rfl, rfl, rfl⟩

/-! ## Claim C9: formatter save/load round trip -/

/-- C9: the claim states that saving a `MessagesFormatter` and loading
it back succeeds and reproduces an equivalent formatter.  In the code
`as_dict` returns `self.__dict__`, which contains the
`USE_FUNCTION_CALL_END` attribute; that key is not a parameter of
`__init__`, so `MessagesFormatter(**loaded)` in `load_from_file` raises
`TypeError` for every formatter: the round trip always fails. -/
theorem spec_C9_roundtrip_always_fails (f : MessagesFormatter) :
    MessagesFormatter.loadFromDict (MessagesFormatter.asDict f) = none := by
  unfold MessagesFormatter.loadFromDict
  rw [if_neg]
  intro h
  simp [MessagesFormatter.asDict, initParamNames] at h

/-! ## Claim C2: plain-text provider result -/

/-- The string-result branch of the `while True` loop never breaks: it
appends two FunctionMessage events per iteration and keeps the same
`result`, leaving `sent` and the generation count untouched. -/
theorem runLoop_text_spin (oracle : Nat → GenOutput) (query : Nat) (s : String) :
    ∀ (fuel : Nat) (st : AgentState),
      (runLoop oracle query fuel st (.ofText s)).2 = false ∧
      (runLoop oracle query fuel st (.ofText s)).1.sent = st.sent ∧
      (runLoop oracle query fuel st (.ofText s)).1.genCalls = st.genCalls ∧
      (runLoop oracle query fuel st (.ofText s)).1.events.length = st.events.length + 2 * fuel := by
  intro fuel
  induction fuel with
  | zero => intro st; simp [runLoop]
  | succ n ih =>
    intro st
    rw [runLoop_text_step]
    obtain ⟨h1, h2, h3, h4⟩ := ih _
    refine ⟨h1, by rw [h2]; simp, by rw [h3]; simp, ?_⟩
    rw [h4]
    simp
    omega

/-- C2: the claim states that a plain-text provider result is forwarded
to `send_message_to_user` and ends the turn.  In the code the loop's
string branch falls into the trailing `else` (line 251), which appends
the result again and iterates: with a plain-text first result the turn
never yields for any number of loop iterations, `send_message_to_user`
is never called, no further generation happens, and two FunctionMessage
events are appended per iteration (the AgentMessage append at line 214
did happen). -/
theorem spec_C2_plain_text_never_yields : ∀ fuel : Nat,
    getResponse plainTextOracle initialAgentState "Hello" fuel = none ∧
    (getResponseEx plainTextOracle initialAgentState "Hello" fuel).2 = false ∧
    (getResponseEx plainTextOracle initialAgentState "Hello" fuel).1.sent = [] ∧
    (getResponseEx plainTextOracle initialAgentState "Hello" fuel).1.genCalls = 1 ∧
    (getResponseEx plainTextOracle initialAgentState "Hello" fuel).1.events.length
      = 2 + 2 * fuel := by
  intro fuel
  obtain ⟨h1, h2, h3, h4⟩ := runLoop_text_spin plainTextOracle 1 "Hello there." fuel
    (addEvent (generate plainTextOracle (promptedTurn initialAgentState "Hello").1).1
      .AgentMessage
      (.ofText (generate plainTextOracle
        (promptedTurn initialAgentState "Hello").1).1.lastResponse))
  have hex : getResponseEx plainTextOracle initialAgentState "Hello" fuel =
      runLoop plainTextOracle 1 fuel
        (addEvent (generate plainTextOracle (promptedTurn initialAgentState "Hello").1).1
          .AgentMessage
          (.ofText (generate plainTextOracle
            (promptedTurn initialAgentState "Hello").1).1.lastResponse))
        (.ofText "Hello there.") := rfl
  refine ⟨?_, by rw [hex]; exact h1, by rw [hex, h2]; rfl, by rw [hex, h3]; rfl, ?_⟩
  · show (if (getResponseEx plainTextOracle initialAgentState "Hello" fuel).2
        then some (getResponseEx plainTextOracle initialAgentState "Hello" fuel).1
        else none) = none
    rw [hex, h1]
    rfl
  · rw [hex, h4]
    rfl

/-! ## Claim C8: no internal step cap -/

/-- With a provider whose every call requests another heartbeat, each
loop iteration performs exactly one more generation and the loop never
breaks. -/
theorem runLoop_alwaysHB_spin : ∀ (fuel : Nat) (st : AgentState),
    (runLoop alwaysHeartbeatOracle 1 fuel st
      (.ofCall "core_memory_append" "ok" (some true))).2 = false ∧
    (runLoop alwaysHeartbeatOracle 1 fuel st
      (.ofCall "core_memory_append" "ok" (some true))).1.genCalls = st.genCalls + fuel := by
  intro fuel
  induction fuel with
  | zero => intro st; simp [runLoop]
  | succ n ih =>
    intro st
    rw [runLoop_call_hb _ _ _ _ _ _ (by decide)]
    have hg := generate_call alwaysHeartbeatOracle
      (renderSystemPrompt (addEvent st .FunctionMessage (.ofText "ok")) 1)
      "hb-json" ⟨"core_memory_append", "ok", some true, 0⟩ rfl (by decide)
    rw [hg]
    obtain ⟨h1, h2⟩ := ih _
    refine ⟨h1, ?_⟩
    rw [h2]
    simp
    omega

/-- C8: the claim states that the heartbeat loop has no internal step
cap: for every bound `N` an always-heartbeat-requesting provider trace
makes `get_response` perform more than `N` generation rounds, the loop
ending only because the caller stops it.  Running the loop for `N`
iterations under `alwaysHeartbeatOracle` performs `N + 1` generations
and still has not yielded. -/
theorem spec_C8_no_step_cap : ∀ N : Nat,
    N < (getResponseEx alwaysHeartbeatOracle initialAgentState "Hello" N).1.genCalls ∧
    (getResponseEx alwaysHeartbeatOracle initialAgentState "Hello" N).2 = false := by
  intro N
  obtain ⟨h1, h2⟩ := runLoop_alwaysHB_spin N
    (addEvent (generate alwaysHeartbeatOracle (promptedTurn initialAgentState "Hello").1).1
      .AgentMessage
      (.ofText (generate alwaysHeartbeatOracle
        (promptedTurn initialAgentState "Hello").1).1.lastResponse))
  have hex : getResponseEx alwaysHeartbeatOracle initialAgentState "Hello" N =
      runLoop alwaysHeartbeatOracle 1 N
        (addEvent (generate alwaysHeartbeatOracle (promptedTurn initialAgentState "Hello").1).1
          .AgentMessage
          (.ofText (generate alwaysHeartbeatOracle
            (promptedTurn initialAgentState "Hello").1).1.lastResponse))
        (.ofCall "core_memory_append" "ok" (some true)) := rfl
  constructor
  · rw [hex, h2]
    have : (addEvent (generate alwaysHeartbeatOracle
        (promptedTurn initialAgentState "Hello").1).1 .AgentMessage
        (.ofText (generate alwaysHeartbeatOracle
          (promptedTurn initialAgentState "Hello").1).1.lastResponse)).genCalls = 1 := rfl
    rw [this]
    omega
  · rw [hex]
    exact h1

/-! ## Claim C1: exact number of generation rounds -/

@[simp] theorem initialAgentState_genCalls : initialAgentState.genCalls = 0 := rfl

@[simp] theorem initialAgentState_events : initialAgentState.events = [] := rfl

@[simp] theorem initialAgentState_sent : initialAgentState.sent = [] := rfl

@[simp] theorem initialAgentState_prompts : initialAgentState.prompts = [] := rfl

@[simp] theorem promptedTurn_fst_genCalls (st0 : AgentState) (message : String) :
    (promptedTurn st0 message).1.genCalls = st0.genCalls := rfl

@[simp] theorem promptedTurn_snd_init (message : String) :
    (promptedTurn initialAgentState message).2 = 1 := rfl

/-- A heartbeat-requesting or final structured call cannot be
`activate_message_mode` in a well-formed trace, since the registry
strips that tool's heartbeat field. -/
theorem not_activate_of_heartbeat_field (oracle : Nat → GenOutput)
    (hwf : wellFormedOracle oracle) {i : Nat} {raw : String} {tc : ToolCallResult} {b : Bool}
    (h : oracle i = .ofCall raw tc) (hb : tc.requestHeartbeat = some b) :
    ¬ tc.function = "activate_message_mode" := by
  intro hfn
  have hnone := hwf i raw tc h hfn
  rw [hnone] at hb
  cases hb

/-- Running the loop on a heartbeat-requesting call, with `k` further
heartbeat-requesting generations followed by one final call, breaks
after exactly `k + 2` iterations having made `k + 1` further
generations. -/
theorem runLoop_chain (oracle : Nat → GenOutput) (query : Nat) :
    ∀ (k : Nat) (st : AgentState) (fn rv : String),
      ¬ fn = "activate_message_mode" →
      (∀ j, j < k → ∃ raw tc, oracle (st.genCalls + j) = .ofCall raw tc ∧
          tc.requestHeartbeat = some true ∧ ¬ tc.function = "activate_message_mode") →
      (∃ raw tc, oracle (st.genCalls + k) = .ofCall raw tc ∧
          tc.requestHeartbeat = some false ∧ ¬ tc.function = "activate_message_mode") →
      ∃ st2, runLoop oracle query (k + 2) st (.ofCall fn rv (some true)) = (st2, true) ∧
        st2.genCalls = st.genCalls + (k + 1) := by
  intro k
  induction k with
  | zero =>
    intro st fn rv hfn _ hfalse
    obtain ⟨raw, tc, hor, hhb, hna⟩ := hfalse
    rw [Nat.add_zero] at hor
    rw [show (0 : Nat) + 2 = 0 + 1 + 1 from rfl]
    rw [runLoop_call_hb oracle query (0 + 1) st fn rv hfn]
    have hg := generate_call oracle
      (renderSystemPrompt (addEvent st .FunctionMessage (.ofText rv)) query) raw tc
      (by simpa using hor) hna
    rw [hg, hhb]
    rw [runLoop_call_break oracle query 0 _ tc.function tc.returnValue (some false) hna
      (by simp)]
    refine ⟨_, rfl, ?_⟩
    simp
  | succ k ih =>
    intro st fn rv hfn htrue hfalse
    obtain ⟨raw0, tc0, hor0, hhb0, hna0⟩ := htrue 0 (Nat.succ_pos k)
    rw [Nat.add_zero] at hor0
    rw [show (k : Nat) + 1 + 2 = (k + 2) + 1 from rfl]
    rw [runLoop_call_hb oracle query (k + 2) st fn rv hfn]
    have hg := generate_call oracle
      (renderSystemPrompt (addEvent st .FunctionMessage (.ofText rv)) query) raw0 tc0
      (by simpa using hor0) hna0
    rw [hg, hhb0]
    have hgen3 : (addEvent
        ({ renderSystemPrompt (addEvent st .FunctionMessage (.ofText rv)) query with
            genCalls := (renderSystemPrompt (addEvent st .FunctionMessage (.ofText rv))
              query).genCalls + 1
            lastResponse := raw0
            archivalCount := (renderSystemPrompt (addEvent st .FunctionMessage (.ofText rv))
              query).archivalCount + tc0.archivalInserts })
        .AgentMessage
        (.ofText ({ renderSystemPrompt (addEvent st .FunctionMessage (.ofText rv)) query with
            genCalls := (renderSystemPrompt (addEvent st .FunctionMessage (.ofText rv))
              query).genCalls + 1
            lastResponse := raw0
            archivalCount := (renderSystemPrompt (addEvent st .FunctionMessage (.ofText rv))
              query).archivalCount + tc0.archivalInserts }).lastResponse)).genCalls
        = st.genCalls + 1 := by simp
    obtain ⟨st2, hrun, hcalls⟩ := ih _ tc0.function tc0.returnValue hna0
      (fun j hj => by
        obtain ⟨raw, tc, ho, h1, h2⟩ := htrue (j + 1) (Nat.succ_lt_succ hj)
        refine ⟨raw, tc, ?_, h1, h2⟩
        rw [hgen3]
        rw [show st.genCalls + 1 + j = st.genCalls + (j + 1) from by omega]
        exact ho)
      (by
        obtain ⟨raw, tc, ho, h1, h2⟩ := hfalse
        refine ⟨raw, tc, ?_, h1, h2⟩
        rw [hgen3]
        rw [show st.genCalls + 1 + k = st.genCalls + (k + 1) from by omega]
        exact ho)
    refine ⟨st2, hrun, ?_⟩
    rw [hcalls, hgen3]
    omega

/-- C1: for a provider-result sequence whose first `N - 1` results are
structured tool calls with `request_heartbeat` true and whose `N`-th is
a structured tool call with `request_heartbeat` false, `get_response`
performs exactly `N` generation calls and then returns control to the
caller (the loop breaks, yielding the turn). -/
theorem spec_C1_heartbeat_rounds (N : Nat) (oracle : Nat → GenOutput) (message : String)
    (hN : 1 ≤ N) (hwf : wellFormedOracle oracle)
    (htrue : ∀ i, i < N - 1 → isHeartbeatCall (oracle i))
    (hfalse : isFinalCall (oracle (N - 1))) :
    ∃ st, getResponse oracle initialAgentState message N = some st ∧ st.genCalls = N := by
  obtain ⟨M, rfl⟩ : ∃ M, N = M + 1 := ⟨N - 1, by omega⟩
  suffices h : ∃ st2, getResponseEx oracle initialAgentState message (M + 1) = (st2, true) ∧
      st2.genCalls = M + 1 by
    obtain ⟨st2, h1, h2⟩ := h
    exact ⟨st2, by simp [getResponse, h1], h2⟩
  cases M with
  | zero =>
    obtain ⟨raw, tc, h0, hb0⟩ := hfalse
    simp only [Nat.add_sub_cancel] at h0
    have hna := not_activate_of_heartbeat_field oracle hwf h0 hb0
    have hg := generate_call oracle (promptedTurn initialAgentState message).1 raw tc
      (by simpa using h0) hna
    show ∃ st2, runLoop oracle (promptedTurn initialAgentState message).2 (0 + 1)
        (addEvent (generate oracle (promptedTurn initialAgentState message).1).1 .AgentMessage
          (.ofText (generate oracle (promptedTurn initialAgentState message).1).1.lastResponse))
        (generate oracle (promptedTurn initialAgentState message).1).2 = (st2, true) ∧
      st2.genCalls = 0 + 1
    have hres : (generate oracle (promptedTurn initialAgentState message).1).2 =
        .ofCall tc.function tc.returnValue (some false) := by
      rw [hg]
      simp [hb0]
    rw [hres]
    rw [runLoop_call_break oracle (promptedTurn initialAgentState message).2 0 _
      tc.function tc.returnValue (some false) hna (by simp)]
    refine ⟨_, rfl, ?_⟩
    rw [addEvent_genCalls, addEvent_genCalls, hg]
    simp
  | succ K =>
    obtain ⟨raw0, tc0, h0, hb0⟩ := htrue 0 (by omega)
    have na0 := not_activate_of_heartbeat_field oracle hwf h0 hb0
    have hg := generate_call oracle (promptedTurn initialAgentState message).1 raw0 tc0
      (by simpa using h0) na0
    show ∃ st2, runLoop oracle (promptedTurn initialAgentState message).2 (K + 1 + 1)
        (addEvent (generate oracle (promptedTurn initialAgentState message).1).1 .AgentMessage
          (.ofText (generate oracle (promptedTurn initialAgentState message).1).1.lastResponse))
        (generate oracle (promptedTurn initialAgentState message).1).2 = (st2, true) ∧
      st2.genCalls = K + 1 + 1
    have hgen1 : (generate oracle (promptedTurn initialAgentState message).1).1.genCalls = 1 := by
      rw [hg]
      simp
    have hres : (generate oracle (promptedTurn initialAgentState message).1).2 =
        .ofCall tc0.function tc0.returnValue (some true) := by
      rw [hg]
      simp [hb0]
    obtain ⟨st2, hrun, hcalls⟩ :=
      runLoop_chain oracle (promptedTurn initialAgentState message).2 K
        (addEvent (generate oracle (promptedTurn initialAgentState message).1).1 .AgentMessage
          (.ofText (generate oracle (promptedTurn initialAgentState message).1).1.lastResponse))
        tc0.function tc0.returnValue na0
        (fun j hj => by
          obtain ⟨rawj, tcj, hoj, hbj⟩ := htrue (j + 1) (by omega)
          have naj := not_activate_of_heartbeat_field oracle hwf hoj hbj
          refine ⟨rawj, tcj, ?_, hbj, naj⟩
          rw [addEvent_genCalls, hgen1]
          rw [show 1 + j = j + 1 from by omega]
          exact hoj)
        (by
          obtain ⟨rawK, tcK, hoK, hbK⟩ := hfalse
          simp only [Nat.add_sub_cancel] at hoK
          have naK := not_activate_of_heartbeat_field oracle hwf hoK hbK
          refine ⟨rawK, tcK, ?_, hbK, naK⟩
          rw [addEvent_genCalls, hgen1]
          rw [show 1 + K = K + 1 from by omega]
          exact hoK)
    rw [hres]
    rw [show K + 1 + 1 = K + 2 from rfl]
    refine ⟨st2, hrun, ?_⟩
    rw [hcalls, addEvent_genCalls, hgen1]
    omega

/-- Witness for C1: under `c1Oracle` (one heartbeat-requesting call,
then a final call) and `N = 2`, the turn yields after exactly two
generations. -/
theorem spec_C1_heartbeat_rounds_witness :
    ∃ st, getResponse c1Oracle initialAgentState "Hello" 2 = some st ∧ st.genCalls = 2 := by
  refine spec_C1_heartbeat_rounds 2 c1Oracle "Hello" (by omega) ?_ ?_ ?_
  · intro i raw tc h hfn
    by_cases hi : i = 0
    · subst hi
      simp [c1Oracle] at h
      rw [← h.2] at hfn
      simp at hfn
    · simp [c1Oracle, hi] at h
      rw [← h.2] at hfn
      simp at hfn
  · intro i hi
    have hz : i = 0 := by omega
    subst hz
    exact ⟨"c0-json", ⟨"core_memory_append", "ok", some true, 0⟩, rfl, rfl⟩
  · exact ⟨"c1-json", ⟨"archival_memory_insert", "ok", some false, 1⟩, rfl, rfl⟩

/-! ## Claims C3 and C7: the `activate_message_mode` tool -/

@[simp] theorem promptedTurn_init_events (message : String) :
    (promptedTurn initialAgentState message).1.events = [(.UserMessage, .ofText message)] := rfl

@[simp] theorem promptedTurn_init_sent (message : String) :
    (promptedTurn initialAgentState message).1.sent = [] := rfl

@[simp] theorem promptedTurn_init_prompts_length (message : String) :
    (promptedTurn initialAgentState message).1.prompts.length = 1 := rfl

/-- Dispatching `activate_message_mode` inside a generation call:
the tool's `run` appends the current raw output as an AgentMessage
event, appends the "Message mode activated." FunctionMessage event,
renders a fresh prompt, makes one nested generation, and forwards the
nested text to the user; the call reports return value
"Message mode activated.". -/
theorem generate_activate (oracle : Nat → GenOutput) (st : AgentState) (raw rv : String)
    (hbv : Option Bool) (ai : Nat)
    (h : oracle st.genCalls = .ofCall raw ⟨"activate_message_mode", rv, hbv, ai⟩) :
    generate oracle st =
      ({ st with
          events := st.events ++ [(.AgentMessage, .ofText raw),
            (.FunctionMessage, .ofText "Message mode activated.")]
          sent := st.sent ++ [(oracle (st.genCalls + 1)).rawText]
          genCalls := st.genCalls + 1 + 1
          prompts := st.prompts ++
            [{ imbCount := (st.events ++ [(EventType.AgentMessage, EventContent.ofText raw),
                 (EventType.FunctionMessage,
                   EventContent.ofText "Message mode activated.")]).length,
               ckvCount := st.archivalCount, lastModified := st.coreLastModified,
               iamContent := st.coreContent,
               eventsAtRender := (st.events ++
                 [(EventType.AgentMessage, EventContent.ofText raw),
                  (EventType.FunctionMessage,
                    EventContent.ofText "Message mode activated.")]).length,
               archivalAtRender := st.archivalCount }]
          lastResponse := (oracle (st.genCalls + 1)).rawText
          useFunctionCallEnd := false },
       .ofCall "activate_message_mode" "Message mode activated." hbv) := by
  unfold generate
  rw [h]
  simp [addEvent, renderSystemPrompt]

/-- C3: a dispatched `activate_message_mode` call — whose
`request_heartbeat` field the registry strips, so it never reads
`some true` — performs exactly one nested generation (two generations
in total for the turn, with two prompt renders) and the heartbeat chain
then terminates: the loop breaks on its first iteration. -/
theorem spec_C3_activate_single_nested (oracle : Nat → GenOutput) (message raw rv : String)
    (ai : Nat) (hb : Option Bool)
    (h0 : oracle 0 = .ofCall raw ⟨"activate_message_mode", rv, hb, ai⟩)
    (hhb : ¬ hb = some true) :
    ∃ st, getResponse oracle initialAgentState message 1 = some st ∧
      st.genCalls = 2 ∧ st.prompts.length = 2 := by
  have hg := generate_activate oracle (promptedTurn initialAgentState message).1 raw rv hb ai
    (by simpa using h0)
  suffices h : ∃ st2, getResponseEx oracle initialAgentState message 1 = (st2, true) ∧
      st2.genCalls = 2 ∧ st2.prompts.length = 2 by
    obtain ⟨st2, h1, h2, h3⟩ := h
    exact ⟨st2, by simp [getResponse, h1], h2, h3⟩
  show ∃ st2, runLoop oracle (promptedTurn initialAgentState message).2 (0 + 1)
      (addEvent (generate oracle (promptedTurn initialAgentState message).1).1 .AgentMessage
        (.ofText (generate oracle (promptedTurn initialAgentState message).1).1.lastResponse))
      (generate oracle (promptedTurn initialAgentState message).1).2 = (st2, true) ∧
    st2.genCalls = 2 ∧ st2.prompts.length = 2
  have hres : (generate oracle (promptedTurn initialAgentState message).1).2 =
      .ofCall "activate_message_mode" "Message mode activated." hb := by
    rw [hg]
  rw [hres]
  rw [runLoop_call_break_act oracle (promptedTurn initialAgentState message).2 0 _
    "Message mode activated." hb hhb]
  refine ⟨_, rfl, ?_, ?_⟩
  · rw [addEvent_genCalls, hg]
    simp
  · rw [addEvent_prompts, hg]
    simp

/-- Witness for C3: under `c3Oracle` the turn yields after one loop
iteration with two generations and two prompt renders. -/
theorem spec_C3_activate_single_nested_witness :
    ∃ st, getResponse c3Oracle initialAgentState "Hi" 1 = some st ∧
      st.genCalls = 2 ∧ st.prompts.length = 2 :=
  spec_C3_activate_single_nested c3Oracle "Hi" "act-json" "" 0 none rfl (by simp)

/-- C7: when `activate_message_mode` is dispatched, the prose produced
by its nested generation is forwarded to `send_message_to_user` and is
appended to the event log as an AgentMessage event (at line 214, since
the nested call overwrote `last_response`). -/
theorem spec_C7_activate_forwards_prose (oracle : Nat → GenOutput) (message raw rv : String)
    (ai : Nat) (hb : Option Bool)
    (h0 : oracle 0 = .ofCall raw ⟨"activate_message_mode", rv, hb, ai⟩)
    (hhb : ¬ hb = some true) :
    ∃ st, getResponse oracle initialAgentState message 1 = some st ∧
      st.sent = [(oracle 1).rawText] ∧
      st.events = [(.UserMessage, .ofText message), (.AgentMessage, .ofText raw),
        (.FunctionMessage, .ofText "Message mode activated."),
        (.AgentMessage, .ofText ((oracle 1).rawText))] := by
  have hg := generate_activate oracle (promptedTurn initialAgentState message).1 raw rv hb ai
    (by simpa using h0)
  suffices h : ∃ st2, getResponseEx oracle initialAgentState message 1 = (st2, true) ∧
      st2.sent = [(oracle 1).rawText] ∧
      st2.events = [(.UserMessage, .ofText message), (.AgentMessage, .ofText raw),
        (.FunctionMessage, .ofText "Message mode activated."),
        (.AgentMessage, .ofText ((oracle 1).rawText))] by
    obtain ⟨st2, h1, h2, h3⟩ := h
    exact ⟨st2, by simp [getResponse, h1], h2, h3⟩
  show ∃ st2, runLoop oracle (promptedTurn initialAgentState message).2 (0 + 1)
      (addEvent (generate oracle (promptedTurn initialAgentState message).1).1 .AgentMessage
        (.ofText (generate oracle (promptedTurn initialAgentState message).1).1.lastResponse))
      (generate oracle (promptedTurn initialAgentState message).1).2 = (st2, true) ∧
    st2.sent = [(oracle 1).rawText] ∧
    st2.events = [(.UserMessage, .ofText message), (.AgentMessage, .ofText raw),
      (.FunctionMessage, .ofText "Message mode activated."),
      (.AgentMessage, .ofText ((oracle 1).rawText))]
  have hres : (generate oracle (promptedTurn initialAgentState message).1).2 =
      .ofCall "activate_message_mode" "Message mode activated." hb := by
    rw [hg]
  rw [hres]
  rw [runLoop_call_break_act oracle (promptedTurn initialAgentState message).2 0 _
    "Message mode activated." hb hhb]
  refine ⟨_, rfl, ?_, ?_⟩
  · rw [addEvent_sent, hg]
    simp
  · rw [addEvent_events, hg]
    simp

/-- Witness for C7: under `c7Oracle` the nested prose
"Welcome, adventurer!" is both sent to the user and logged as the final
AgentMessage event. -/
theorem spec_C7_activate_forwards_prose_witness :
    ∃ st, getResponse c7Oracle initialAgentState "Hi" 1 = some st ∧
      st.sent = ["Welcome, adventurer!"] ∧
      st.events = [(.UserMessage, .ofText "Hi"), (.AgentMessage, .ofText "call-json"),
        (.FunctionMessage, .ofText "Message mode activated."),
        (.AgentMessage, .ofText "Welcome, adventurer!")] := by
  have h := spec_C7_activate_forwards_prose c7Oracle "Hi" "call-json" "" 0 none rfl (by simp)
  simpa using h

/-! ## Claim C4: the first render of a turn -/

@[simp] theorem promptedTurn_init_prompts (message : String) :
    (promptedTurn initialAgentState message).1.prompts =
      [{ imbCount := 1, ckvCount := 0, lastModified := "", iamContent := "",
         eventsAtRender := 1, archivalAtRender := 0 }] := rfl

/-- Counterexample for C4: on an inbound message with an empty event
store, the rendered system prompt has `imb_count = 1`, not `0` — the
UserMessage event is appended at line 193 before the store is queried
at line 196, so the recall count already includes it. -/
theorem spec_C4_counterexample :
    ((getResponse c4Oracle initialAgentState "Hello" 1).map
      (fun st => st.prompts.map fun p => (p.imbCount, p.ckvCount))) = some [(1, 0)] ∧
    ¬ ((getResponse c4Oracle initialAgentState "Hello" 1).map
      (fun st => st.prompts.map fun p => (p.imbCount, p.ckvCount))) = some [(0, 0)] := by
  exact ⟨by decide, by decide⟩

/-- C4 (amended): on an inbound message with an empty event store,
`get_response` appends a UserMessage event, renders a system prompt
with recall count `imb_count = 1` (the just-appended user message is
counted) and archival count `ckv_count = 0`, and invokes the provider
exactly once before the first tool dispatch. -/
theorem spec_C4_amended (message : String) (oracle : Nat → GenOutput) (raw : String)
    (tc : ToolCallResult) (h0 : oracle 0 = .ofCall raw tc)
    (hfn : ¬ tc.function = "activate_message_mode") :
    (promptedTurn initialAgentState message).1.events = [(.UserMessage, .ofText message)] ∧
    ((promptedTurn initialAgentState message).1.prompts.map fun p => (p.imbCount, p.ckvCount))
      = [(1, 0)] ∧
    (promptedTurn initialAgentState message).1.genCalls = 0 ∧
    (generate oracle (promptedTurn initialAgentState message).1).1.genCalls = 1 := by
  refine ⟨rfl, rfl, rfl, ?_⟩
  have hg := generate_call oracle (promptedTurn initialAgentState message).1 raw tc
    (by simpa using h0) hfn
  rw [hg]
  simp

/-- Witness for C4 (amended) at `message = "Hello"` under `c4Oracle`. -/
theorem spec_C4_amended_witness :
    (promptedTurn initialAgentState "Hello").1.events = [(.UserMessage, .ofText "Hello")] ∧
    ((promptedTurn initialAgentState "Hello").1.prompts.map fun p => (p.imbCount, p.ckvCount))
      = [(1, 0)] ∧
    (promptedTurn initialAgentState "Hello").1.genCalls = 0 ∧
    (generate c4Oracle (promptedTurn initialAgentState "Hello").1).1.genCalls = 1 :=
  spec_C4_amended "Hello" c4Oracle "c0-json" ⟨"core_memory_append", "ok", some false, 0⟩
    rfl (by decide)

/-! ## Claim C5: prompt freshness across heartbeats -/

/-- Counterexample for C5: under `c5Oracle` (one heartbeat, then a
final call) the second render substitutes `imb_count = 1` — the value
of `query` captured at line 196 — while the event store holds 3 events
at that moment, so the recall count in the prompt is stale. -/
theorem spec_C5_counterexample :
    ((getResponse c5Oracle initialAgentState "Hello" 2).map
      (fun st => st.prompts.map fun p => (p.imbCount, p.eventsAtRender)))
      = some [(1, 1), (1, 3)] ∧
    (1 : Nat) ≠ 3 := by
  exact ⟨by decide, by decide⟩

/-- One heartbeat step (render, generate, append AgentMessage) under a
non-activate provider preserves the render invariant: one prompt per
generation, recall count frozen at the turn-start value `1`, archival
count read at render time. -/
theorem hbStep_promptsFresh (oracle : Nat → GenOutput) (hna : nonActivateOracle oracle)
    (stA : AgentState)
    (h1 : stA.prompts.length = stA.genCalls)
    (h2 : ∀ p ∈ stA.prompts, p.imbCount = 1 ∧ p.ckvCount = p.archivalAtRender) :
    (addEvent (generate oracle (renderSystemPrompt stA 1)).1 .AgentMessage
        (.ofText (generate oracle (renderSystemPrompt stA 1)).1.lastResponse)).prompts.length =
      (addEvent (generate oracle (renderSystemPrompt stA 1)).1 .AgentMessage
        (.ofText (generate oracle (renderSystemPrompt stA 1)).1.lastResponse)).genCalls ∧
    ∀ p ∈ (addEvent (generate oracle (renderSystemPrompt stA 1)).1 .AgentMessage
        (.ofText (generate oracle (renderSystemPrompt stA 1)).1.lastResponse)).prompts,
      p.imbCount = 1 ∧ p.ckvCount = p.archivalAtRender := by
  cases hor : oracle (renderSystemPrompt stA 1).genCalls with
  | ofText s =>
    rw [generate_text oracle (renderSystemPrompt stA 1) s hor]
    constructor
    · simp
      omega
    · intro p hp
      simp at hp
      rcases hp with hp | hp
      · exact h2 p hp
      · subst hp
        exact ⟨rfl, rfl⟩
  | ofCall raw tc =>
    rw [generate_call oracle (renderSystemPrompt stA 1) raw tc hor (hna _ _ _ hor)]
    constructor
    · simp
      omega
    · intro p hp
      simp at hp
      rcases hp with hp | hp
      · exact h2 p hp
      · subst hp
        exact ⟨rfl, rfl⟩

/-- The loop preserves the render invariant under a non-activate
provider with the captured `query = 1`. -/
theorem runLoop_promptsFresh (oracle : Nat → GenOutput) (hna : nonActivateOracle oracle) :
    ∀ (fuel : Nat) (st : AgentState) (res : LoopResult),
      st.prompts.length = st.genCalls →
      (∀ p ∈ st.prompts, p.imbCount = 1 ∧ p.ckvCount = p.archivalAtRender) →
      (runLoop oracle 1 fuel st res).1.prompts.length
          = (runLoop oracle 1 fuel st res).1.genCalls ∧
      ∀ p ∈ (runLoop oracle 1 fuel st res).1.prompts,
        p.imbCount = 1 ∧ p.ckvCount = p.archivalAtRender := by
  intro fuel
  induction fuel with
  | zero => intro st res h1 h2; exact ⟨h1, h2⟩
  | succ n ih =>
    intro st res h1 h2
    cases res with
    | ofText s =>
      rw [runLoop_text_step]
      exact ih _ _ (by simpa using h1) (by simpa using h2)
    | ofCall fn rv hb =>
      by_cases hfn : fn = "activate_message_mode"
      · subst hfn
        cases hb with
        | none =>
          rw [runLoop_call_break_act oracle 1 n st rv none (by simp)]
          exact ⟨h1, h2⟩
        | some b =>
          cases b with
          | false =>
            rw [runLoop_call_break_act oracle 1 n st rv (some false) (by simp)]
            exact ⟨h1, h2⟩
          | true =>
            have hstep : runLoop oracle 1 (n + 1) st
                (.ofCall "activate_message_mode" rv (some true)) =
              runLoop oracle 1 n
                (addEvent (generate oracle (renderSystemPrompt st 1)).1 .AgentMessage
                  (.ofText (generate oracle (renderSystemPrompt st 1)).1.lastResponse))
                (generate oracle (renderSystemPrompt st 1)).2 := by
              simp [runLoop]
            rw [hstep]
            obtain ⟨g1, g2⟩ := hbStep_promptsFresh oracle hna st h1 h2
            exact ih _ _ g1 g2
      · cases hb with
        | none =>
          rw [runLoop_call_break oracle 1 n st fn rv none hfn (by simp)]
          exact ⟨by simpa using h1, by simpa using h2⟩
        | some b =>
          cases b with
          | false =>
            rw [runLoop_call_break oracle 1 n st fn rv (some false) hfn (by simp)]
            exact ⟨by simpa using h1, by simpa using h2⟩
          | true =>
            rw [runLoop_call_hb oracle 1 n st fn rv hfn]
            obtain ⟨g1, g2⟩ := hbStep_promptsFresh oracle hna
              (addEvent st .FunctionMessage (.ofText rv)) (by simpa using h1)
              (by simpa using h2)
            exact ih _ _ g1 g2

/-- C5 (amended): the system prompt is re-rendered before every
generation call of a turn (one render per generation), with the
archival count read from the store at render time; but the recall count
substituted into every render of the turn is the `query` value captured
once at the start of the turn (here `1`: the just-appended user
message), not the event store's value at the moment of the render. -/
theorem spec_C5_stale_recall_count (oracle : Nat → GenOutput) (message : String) (fuel : Nat)
    (st : AgentState) (hna : nonActivateOracle oracle)
    (hrun : getResponse oracle initialAgentState message fuel = some st) :
    st.prompts.length = st.genCalls ∧
    ∀ p ∈ st.prompts, p.imbCount = 1 ∧ p.ckvCount = p.archivalAtRender := by
  have hst : st = (getResponseEx oracle initialAgentState message fuel).1 := by
    unfold getResponse at hrun
    by_cases hb2 : (getResponseEx oracle initialAgentState message fuel).2
    · rw [if_pos hb2] at hrun
      exact (Option.some_inj.mp hrun).symm
    · rw [if_neg hb2] at hrun
      cases hrun
  subst hst
  have hex : getResponseEx oracle initialAgentState message fuel =
      runLoop oracle (promptedTurn initialAgentState message).2 fuel
        (addEvent (generate oracle (promptedTurn initialAgentState message).1).1 .AgentMessage
          (.ofText (generate oracle (promptedTurn initialAgentState message).1).1.lastResponse))
        (generate oracle (promptedTurn initialAgentState message).1).2 := rfl
  rw [hex, promptedTurn_snd_init]
  have hbase1 : (addEvent (generate oracle (promptedTurn initialAgentState message).1).1
      .AgentMessage
      (.ofText (generate oracle
        (promptedTurn initialAgentState message).1).1.lastResponse)).prompts.length =
      (addEvent (generate oracle (promptedTurn initialAgentState message).1).1 .AgentMessage
        (.ofText (generate oracle
          (promptedTurn initialAgentState message).1).1.lastResponse)).genCalls := by
    cases hor : oracle ((promptedTurn initialAgentState message).1.genCalls) with
    | ofText s =>
      rw [generate_text oracle (promptedTurn initialAgentState message).1 s hor]
      simp
    | ofCall raw tc =>
      rw [generate_call oracle (promptedTurn initialAgentState message).1 raw tc hor
        (hna _ _ _ hor)]
      simp
  have hbase2 : ∀ p ∈ (addEvent (generate oracle (promptedTurn initialAgentState message).1).1
      .AgentMessage
      (.ofText (generate oracle
        (promptedTurn initialAgentState message).1).1.lastResponse)).prompts,
      p.imbCount = 1 ∧ p.ckvCount = p.archivalAtRender := by
    cases hor : oracle ((promptedTurn initialAgentState message).1.genCalls) with
    | ofText s =>
      rw [generate_text oracle (promptedTurn initialAgentState message).1 s hor]
      intro p hp
      simp at hp
      subst hp
      exact ⟨rfl, rfl⟩
    | ofCall raw tc =>
      rw [generate_call oracle (promptedTurn initialAgentState message).1 raw tc hor
        (hna _ _ _ hor)]
      intro p hp
      simp at hp
      subst hp
      exact ⟨rfl, rfl⟩
  exact runLoop_promptsFresh oracle hna fuel _ _ hbase1 hbase2

/-- Witness for C5 (amended): the two-round `c5Oracle` run yields with
two prompts, both carrying the frozen recall count `1`. -/
theorem spec_C5_stale_recall_count_witness :
    ∃ st, getResponse c5Oracle initialAgentState "Hello" 2 = some st ∧
      (st.prompts.length = st.genCalls ∧
       ∀ p ∈ st.prompts, p.imbCount = 1 ∧ p.ckvCount = p.archivalAtRender) := by
  have hna : nonActivateOracle c5Oracle := by
    intro i raw tc h
    unfold c5Oracle at h
    split at h
    · cases h; decide
    · cases h; decide
  have hsome : getResponse c5Oracle initialAgentState "Hello" 2 =
      some (getResponseEx c5Oracle initialAgentState "Hello" 2).1 := rfl
  exact ⟨_, hsome, spec_C5_stale_recall_count c5Oracle "Hello" 2 _ hna hsome⟩

/-! ## Claim C10: in-place mutation by `format_messages` -/

/-- One loop step of `format_messages` succeeds and mutates the current
entry exactly as claim C10 describes, provided entries of role system,
user or assistant carry string content. -/
theorem formatStep_mutation (f : MessagesFormatter) (hstrip : f.STRIP_PROMPT = true)
    (fm lr : String) (noUps : Bool) (m : ChatMessage)
    (hm : (m.role = "system" ∨ m.role = "user" ∨ m.role = "assistant") →
      m.content.isStr = true) :
    (formatStep f fm lr noUps m).map (fun t => t.2.2.2) = some (claimedMutation m) := by
  obtain ⟨role, content⟩ := m
  by_cases h1 : role = "system"
  case pos =>
    have hc := hm (Or.inl h1)
    have hA : ¬ role = "assistant" := by rw [h1]; decide
    have hF : ¬ role = "function" := by rw [h1]; decide
    cases content with
    | ofStr c =>
      simp only [formatStep, claimedMutation]
      rw [if_pos h1, if_neg hA, if_neg hF]
      split <;> simp
    | ofList xs => simp [MsgContent.isStr] at hc
  case neg =>
  by_cases h2 : role = "user"
  case pos =>
    have hc := hm (Or.inr (Or.inl h2))
    have hA : ¬ role = "assistant" := by rw [h2]; decide
    have hF : ¬ role = "function" := by rw [h2]; decide
    cases content with
    | ofStr c =>
      simp only [formatStep, claimedMutation]
      rw [if_neg h1, if_pos h2, if_neg hA, if_neg hF]
      split <;> simp
    | ofList xs => simp [MsgContent.isStr] at hc
  case neg =>
  by_cases h3 : role = "assistant"
  case pos =>
    have hc := hm (Or.inr (Or.inr h3))
    cases content with
    | ofStr c =>
      simp only [formatStep, claimedMutation]
      rw [if_neg h1, if_neg h2, if_pos h3, if_pos h3, if_pos hstrip]
      split <;> simp
    | ofList xs => simp [MsgContent.isStr] at hc
  case neg =>
  by_cases h4 : role = "function"
  case pos =>
    cases content with
    | ofStr c =>
      simp only [formatStep, claimedMutation]
      rw [if_neg h1, if_neg h2, if_neg h3, if_pos h4, if_neg h3, if_pos h4]
      split <;> simp
    | ofList xs =>
      simp only [formatStep, claimedMutation]
      rw [if_neg h1, if_neg h2, if_neg h3, if_pos h4, if_neg h3, if_pos h4]
      split <;> simp
  case neg =>
    simp only [formatStep, claimedMutation]
    rw [if_neg h1, if_neg h2, if_neg h3, if_neg h4, if_neg h3, if_neg h4]
    simp

/-- The whole loop of `format_messages` succeeds and returns the input
list mutated entrywise as claim C10 describes. -/
theorem formatWalk_mutation (f : MessagesFormatter) (hstrip : f.STRIP_PROMPT = true) :
    ∀ (msgs : List ChatMessage) (fm lr : String) (noUps : Bool),
      (∀ m ∈ msgs, (m.role = "system" ∨ m.role = "user" ∨ m.role = "assistant") →
        m.content.isStr = true) →
      (formatWalk f msgs fm lr noUps).map (fun t => t.2.2) = some (msgs.map claimedMutation) := by
  intro msgs
  induction msgs with
  | nil => intro fm lr noUps _; rfl
  | cons m rest ih =>
    intro fm lr noUps hall
    have hstep := formatStep_mutation f hstrip fm lr noUps m (hall m (by simp))
    cases hs : formatStep f fm lr noUps m with
    | none => rw [hs] at hstep; cases hstep
    | some t =>
      rw [hs] at hstep
      obtain ⟨fm1, lr1, noUps1, m1⟩ := t
      simp at hstep
      have hrest := ih fm1 lr1 noUps1 (fun x hx => hall x (by simp [hx]))
      cases hr : formatWalk f rest fm1 lr1 noUps1 with
      | none => rw [hr] at hrest; cases hrest
      | some t2 =>
        rw [hr] at hrest
        obtain ⟨fmF, lrF, ms⟩ := t2
        simp at hrest
        simp [formatWalk, hs, hr, hstep, hrest]

/-- C10: `format_messages` mutates its input in place — with
`STRIP_PROMPT` true each assistant entry's content is replaced by its
whitespace-stripped value, each function entry's list-valued content is
replaced by the newline-joined JSON dump — while every role field and
every other entry (including entries with roles outside
system/user/assistant/function, which are silently skipped) is left
unchanged, and no error is raised. -/
theorem spec_C10_format_messages_mutation (f : MessagesFormatter) (msgs : List ChatMessage)
    (hstrip : f.STRIP_PROMPT = true)
    (hc : ∀ m ∈ msgs, (m.role = "system" ∨ m.role = "user" ∨ m.role = "assistant") →
      m.content.isStr = true) :
    (formatMessages f msgs).map (fun t => t.2.2) = some (msgs.map claimedMutation) := by
  have hw := formatWalk_mutation f hstrip msgs f.PRE_PROMPT "assistant" false hc
  unfold formatMessages
  cases hr : formatWalk f msgs f.PRE_PROMPT "assistant" false with
  | none => rw [hr] at hw; cases hw
  | some t =>
    rw [hr] at hw
    obtain ⟨fm, lr, ms⟩ := t
    simp at hw
    simp [hw]

/-- Witness for C10: the repository's `custom_chat_ml_formatter` applied
to `sampleMessages`. -/
theorem spec_C10_format_messages_mutation_witness :
    (formatMessages customChatMLFormatter sampleMessages).map (fun t => t.2.2)
      = some (sampleMessages.map claimedMutation) := by
  apply spec_C10_format_messages_mutation
  · rfl
  · intro m hm
    fin_cases hm <;> decide
